import Mathlib

/-!
Shallow embedding of the Mergington High School activities service
(`src/app.py`, `src/database.py`).

The persisted relational store holds three tables: `students`,
`activities`, `participations`.  Rows are modelled as structures whose
fields follow the SQLAlchemy columns that the endpoints read or write
(`created_at` / `joined_at` timestamps and the nullable display columns
`name`, `grade`, `class_section` are never read by any endpoint and are
omitted).  Integer primary keys are autoincremented; the store carries
the next id for each table.

Session semantics (`database.py`: `SessionLocal = sessionmaker(autocommit=False,
autoflush=False, ...)`, `get_db`): every request runs on a fresh session and
the store is only changed by `db.commit()`.  An endpoint that raises
`HTTPException` never reaches its `commit()`, and `get_db`'s `finally:
db.close()` rolls the open transaction back, so a failing call leaves the
persisted store exactly as it was — including any student row that was
`db.add`-ed and `db.flush`-ed earlier in the same call.  Each endpoint is
therefore embedded as a function `... → DB → Except HTTPException (DB × String)`:
the `.ok` state is the store after the commit, and `.error` means the
store stays the input state (made explicit by the `run*` wrappers below).
-/

/-- A row of the `students` table (`database.py`, class `Student`): integer
primary key and unique email.  The nullable display columns are never read
or written by the endpoints and are omitted. -/
structure Student where
  id : Nat
  email : String
  deriving Repr, DecidableEq

/-- A row of the `activities` table (`database.py`, class `Activity`). -/
structure Activity where
  id : Nat
  name : String
  description : String
  schedule : String
  max_participants : Nat
  deriving Repr, DecidableEq

/-- A row of the `participations` table (`database.py`, class
`Participation`): integer primary key and the two foreign keys. -/
structure Participation where
  id : Nat
  student_id : Nat
  activity_id : Nat
  deriving Repr, DecidableEq

/-- The persisted store: the three tables plus the autoincrement counters
for their integer primary keys (SQLite assigns 1, 2, 3, ...). -/
structure DB where
  students : List Student
  activities : List Activity
  participations : List Participation
  nextStudentId : Nat
  nextActivityId : Nat
  nextParticipationId : Nat
  deriving Repr, DecidableEq

/-- A fresh store, right after `create_tables()` on an empty database. -/
def emptyDB : DB :=
  { students := [], activities := [], participations := [],
    nextStudentId := 1, nextActivityId := 1, nextParticipationId := 1 }

/-- `db.query(Activity).filter(Activity.name == activity_name).first()`. -/
def findActivity (db : DB) (activity_name : String) : Option Activity :=
  db.activities.find? (fun a => a.name == activity_name)

/-- `db.query(Student).filter(Student.email == email).first()`. -/
def findStudent (db : DB) (email : String) : Option Student :=
  db.students.find? (fun s => s.email == email)

/-- `db.query(Participation).filter(Participation.student_id == sid,
Participation.activity_id == aid).first()`. -/
def findParticipation (db : DB) (sid aid : Nat) : Option Participation :=
  db.participations.find? (fun p => p.student_id == sid && p.activity_id == aid)

/-- `db.query(Participation).filter(Participation.activity_id == aid).count()`. -/
def participantCount (db : DB) (aid : Nat) : Nat :=
  (db.participations.filter (fun p => p.activity_id == aid)).length

/-- The `HTTPException(status_code=..., detail=...)` raised by the
endpoints: 404 for missing activity/student, 400 for the conflicts. -/
structure HTTPException where
  status_code : Nat
  detail : String
  deriving Repr, DecidableEq

/-- The per-activity record built by `get_activities` (`app.py` lines
49-54): description, schedule, max_participants, and the participant
count (`participants`) — no participant identities. -/
structure ActivityInfo where
  description : String
  schedule : String
  max_participants : Nat
  participants : Nat
  deriving Repr, DecidableEq

/-- `GET /activities` (`app.py`, `get_activities`): enumerate all
activities and pair each name with its record; `participants` is the live
count of `Participation` rows for the activity. -/
def get_activities (db : DB) : List (String × ActivityInfo) :=
  db.activities.map (fun a =>
    (a.name,
     { description := a.description,
       schedule := a.schedule,
       max_participants := a.max_participants,
       participants := participantCount db a.id }))

/-- The straight-line tail of `signup_for_activity` (`app.py` lines
74-102), entered once the activity is resolved and the student is
resolved or freshly created (and flushed): the duplicate check, the
capacity check, and the insert-and-commit.  `db` is the session state the
checks read: the store plus any student flushed in this call. -/
def signupChecks (activity_name email : String) (activity : Activity)
    (student : Student) (db : DB) : Except HTTPException (DB × String) :=
  if (findParticipation db student.id activity.id).isSome then
    .error { status_code := 400,
             detail := "Student is already signed up for this activity" }
  else if participantCount db activity.id ≥ activity.max_participants then
    .error { status_code := 400, detail := "Activity is full" }
  else
    .ok ({ db with
           participations := db.participations ++
             [{ id := db.nextParticipationId, student_id := student.id,
                activity_id := activity.id }],
           nextParticipationId := db.nextParticipationId + 1 },
         "Signed up " ++ email ++ " for " ++ activity_name)

/-- `POST /activities/{activity_name}/signup` (`app.py`,
`signup_for_activity`): resolve the activity (404 if absent), get or
create the student (`db.add` + `db.flush`, which makes the new row and
its id visible to the rest of this call), then run the checks and the
insert.  On `.error` the session is closed without commit, so the
persisted store stays the input `db` (the flushed student included is
rolled back). -/
def signup_for_activity (activity_name email : String) (db : DB) :
    Except HTTPException (DB × String) :=
  match findActivity db activity_name with
  | none => .error { status_code := 404, detail := "Activity not found" }
  | some activity =>
    match findStudent db email with
    | some student => signupChecks activity_name email activity student db
    | none =>
      signupChecks activity_name email activity
        { id := db.nextStudentId, email := email }
        { db with
          students := db.students ++ [{ id := db.nextStudentId, email := email }],
          nextStudentId := db.nextStudentId + 1 }

/-- `DELETE /activities/{activity_name}/unregister` (`app.py`,
`unregister_from_activity`): 404 if the activity is absent, 404 if the
student is absent, 400 if the participation is absent; otherwise delete
the participation row (by primary key) and commit. -/
def unregister_from_activity (activity_name email : String) (db : DB) :
    Except HTTPException (DB × String) :=
  match findActivity db activity_name with
  | none => .error { status_code := 404, detail := "Activity not found" }
  | some activity =>
    match findStudent db email with
    | none => .error { status_code := 404, detail := "Student not found" }
    | some student =>
      match findParticipation db student.id activity.id with
      | none =>
        .error { status_code := 400,
                 detail := "Student is not signed up for this activity" }
      | some participation =>
        .ok ({ db with
               participations :=
                 db.participations.filter (fun p => p.id != participation.id) },
             "Unregistered " ++ email ++ " from " ++ activity_name)

/-- The persisted store after a full `signup` request, session teardown
included: the committed state on success, the unchanged input store on
failure (`get_db` closes the session without commit, rolling back). -/
def runSignup (activity_name email : String) (db : DB) : DB :=
  match signup_for_activity activity_name email db with
  | .ok (db', _) => db'
  | .error _ => db

/-- The persisted store after a full `unregister` request, session
teardown included. -/
def runUnregister (activity_name email : String) (db : DB) : DB :=
  match unregister_from_activity activity_name email db with
  | .ok (db', _) => db'
  | .error _ => db

/-- One entry of `activities_data` (`database.py` lines 107-162). -/
structure ActivityData where
  name : String
  description : String
  schedule : String
  max_participants : Nat
  deriving Repr, DecidableEq

/-- The fixed catalog seeded by `init_db` (`database.py`, `activities_data`). -/
def activities_data : List ActivityData :=
  [ { name := "Chess Club",
      description := "Learn strategies and compete in chess tournaments",
      schedule := "Fridays, 3:30 PM - 5:00 PM", max_participants := 12 },
    { name := "Programming Class",
      description := "Learn programming fundamentals and build software projects",
      schedule := "Tuesdays and Thursdays, 3:30 PM - 4:30 PM",
      max_participants := 20 },
    { name := "Gym Class",
      description := "Physical education and sports activities",
      schedule := "Mondays, Wednesdays, Fridays, 2:00 PM - 3:00 PM",
      max_participants := 30 },
    { name := "Soccer Team",
      description := "Join the school soccer team and compete in matches",
      schedule := "Tuesdays and Thursdays, 4:00 PM - 5:30 PM",
      max_participants := 22 },
    { name := "Basketball Team",
      description := "Practice and play basketball with the school team",
      schedule := "Wednesdays and Fridays, 3:30 PM - 5:00 PM",
      max_participants := 15 },
    { name := "Art Club",
      description := "Explore your creativity through painting and drawing",
      schedule := "Thursdays, 3:30 PM - 5:00 PM", max_participants := 15 },
    { name := "Drama Club",
      description := "Act, direct, and produce plays and performances",
      schedule := "Mondays and Wednesdays, 4:00 PM - 5:30 PM",
      max_participants := 20 },
    { name := "Math Club",
      description := "Solve challenging problems and participate in math competitions",
      schedule := "Tuesdays, 3:30 PM - 4:30 PM", max_participants := 10 },
    { name := "Debate Team",
      description := "Develop public speaking and argumentation skills",
      schedule := "Fridays, 4:00 PM - 5:30 PM", max_participants := 12 } ]

/-- The fixed sample enrollments (`database.py`, `sample_participants`). -/
def sample_participants : List (String × List String) :=
  [ ("Chess Club", ["michael@mergington.edu", "daniel@mergington.edu"]),
    ("Programming Class", ["emma@mergington.edu", "sophia@mergington.edu"]),
    ("Gym Class", ["john@mergington.edu", "olivia@mergington.edu"]),
    ("Soccer Team", ["liam@mergington.edu", "noah@mergington.edu"]),
    ("Basketball Team", ["ava@mergington.edu", "mia@mergington.edu"]),
    ("Art Club", ["amelia@mergington.edu", "harper@mergington.edu"]),
    ("Drama Club", ["ella@mergington.edu", "scarlett@mergington.edu"]),
    ("Math Club", ["james@mergington.edu", "benjamin@mergington.edu"]),
    ("Debate Team", ["charlotte@mergington.edu", "henry@mergington.edu"]) ]

/-- `database.py` lines 165-167: `db.add` one `Activity` per catalog
entry (pending in the session, committed at the end of `init_db`). -/
def seedActivities (db : DB) : DB :=
  activities_data.foldl
    (fun acc ad =>
      { acc with
        activities := acc.activities ++
          [{ id := acc.nextActivityId, name := ad.name,
             description := ad.description, schedule := ad.schedule,
             max_participants := ad.max_participants }],
        nextActivityId := acc.nextActivityId + 1 })
    db

/-- `database.py` lines 186-196: for each email, get or create the
student (new students are `db.flush`-ed, so later lookups in the same
session see them — modelled by reading the accumulator) and `db.add` a
participation for the given activity. -/
def seedEnroll (activity : Activity) (emails : List String) (db : DB) : DB :=
  emails.foldl
    (fun acc email =>
      match findStudent acc email with
      | some student =>
        { acc with
          participations := acc.participations ++
            [{ id := acc.nextParticipationId, student_id := student.id,
               activity_id := activity.id }],
          nextParticipationId := acc.nextParticipationId + 1 }
      | none =>
        let student : Student := { id := acc.nextStudentId, email := email }
        { acc with
          students := acc.students ++ [student],
          nextStudentId := acc.nextStudentId + 1,
          participations := acc.participations ++
            [{ id := acc.nextParticipationId, student_id := student.id,
               activity_id := activity.id }],
          nextParticipationId := acc.nextParticipationId + 1 })
    db

/-- `init_db` (`database.py` lines 93-206).  `create_tables()` only
creates the schema, so it does not change the modelled store.  The
already-initialized check is `db.query(Activity).first()` — any stored
activity row.  Otherwise the catalog is added (pending) and the sample
enrollment loop runs; its `db.query(Activity).filter(...).first()` runs
on a session with `autoflush=False` while the new activities are pending
and unflushed, so the query reads the *stored* activities table — the
input `db`, which is empty on this branch — and every lookup misses:
the loop seeds no students and no participations.  The whole batch is
committed at the end (or rolled back on error; no error is possible in
the model). -/
def init_db (db : DB) : DB :=
  match db.activities.head? with
  | some _ => db
  | none =>
    sample_participants.foldl
      (fun acc pr =>
        match findActivity db pr.1 with
        | none => acc
        | some activity => seedEnroll activity pr.2 acc)
      (seedActivities db)

/-- One API call of the mutating surface, as used to state trace
invariants. -/
inductive Op where
  | signup (activity_name email : String)
  | unregister (activity_name email : String)
  deriving Repr, DecidableEq

/-- The persisted store after one full request (commit on success,
rollback on failure). -/
def applyOp (db : DB) : Op → DB
  | .signup n e => runSignup n e db
  | .unregister n e => runUnregister n e db

/-- The persisted store after a sequence of requests. -/
def runOps (db : DB) : List Op → DB
  | [] => db
  | op :: ops => runOps (applyOp db op) ops

/-! ### Spec-level observers

Helpers used only to state the claims, not part of the embedded code. -/

/-- The student id a `signup`/`unregister` call resolves `email` to: the
stored student's id, or — when no student with that email exists — the id
the autoincrement would assign to the lazily created student. -/
def resolvedStudentId (db : DB) (email : String) : Nat :=
  match findStudent db email with
  | some student => student.id
  | none => db.nextStudentId

/-- Number of `Participation` rows for one (student, activity) pair. -/
def pairCount (db : DB) (sid aid : Nat) : Nat :=
  (db.participations.filter
    (fun p => p.student_id == sid && p.activity_id == aid)).length

/-- The participant count an API consumer reads off the
`GET /activities` response for one activity name. -/
def reportedParticipants (db : DB) (activity_name : String) : Option Nat :=
  ((get_activities db).find? (fun pr => pr.1 == activity_name)).map
    (fun pr => pr.2.participants)

/-- The capacity invariant of §8: no activity's live participation count
exceeds its configured maximum. -/
def CapOk (db : DB) : Prop :=
  ∀ a ∈ db.activities, participantCount db a.id ≤ a.max_participants

/-! ### Congruence and inversion lemmas -/

theorem findActivity_congr {db db' : DB} (h : db'.activities = db.activities)
    (n : String) : findActivity db' n = findActivity db n := by
  unfold findActivity; rw [h]

theorem findStudent_congr {db db' : DB} (h : db'.students = db.students)
    (e : String) : findStudent db' e = findStudent db e := by
  unfold findStudent; rw [h]

theorem findParticipation_congr {db db' : DB}
    (h : db'.participations = db.participations) (sid aid : Nat) :
    findParticipation db' sid aid = findParticipation db sid aid := by
  unfold findParticipation; rw [h]

theorem participantCount_congr {db db' : DB}
    (h : db'.participations = db.participations) (aid : Nat) :
    participantCount db' aid = participantCount db aid := by
  unfold participantCount; rw [h]

theorem get_activities_congr {db db' : DB} (ha : db'.activities = db.activities)
    (hp : db'.participations = db.participations) :
    get_activities db' = get_activities db := by
  unfold get_activities participantCount; rw [ha, hp]

/-- Everything a successful `signup_for_activity` call tells us: the
activity was found, the duplicate and capacity checks passed on the
stored rows, exactly one participation row (with the next id, for the
resolved student and the found activity) was appended, and the student
table either was untouched (student existed) or got exactly the new
email-only row. -/
theorem signup_ok_elim {activity_name email msg : String} {db db' : DB}
    (h : signup_for_activity activity_name email db = .ok (db', msg)) :
    ∃ activity student,
      findActivity db activity_name = some activity ∧
      findParticipation db student.id activity.id = none ∧
      participantCount db activity.id < activity.max_participants ∧
      db'.activities = db.activities ∧
      db'.participations = db.participations ++
        [{ id := db.nextParticipationId, student_id := student.id,
           activity_id := activity.id }] ∧
      db'.nextParticipationId = db.nextParticipationId + 1 ∧
      db'.nextActivityId = db.nextActivityId ∧
      msg = "Signed up " ++ email ++ " for " ++ activity_name ∧
      ((findStudent db email = some student ∧ db'.students = db.students ∧
        db'.nextStudentId = db.nextStudentId) ∨
       (findStudent db email = none ∧
        student = { id := db.nextStudentId, email := email } ∧
        db'.students = db.students ++ [student] ∧
        db'.nextStudentId = db.nextStudentId + 1)) := by
  unfold signup_for_activity at h
  split at h
  · exact absurd h (by simp)
  · rename_i activity hA
    split at h
    · rename_i student hS
      unfold signupChecks at h
      split at h
      · exact absurd h (by simp)
      · rename_i hdup
        split at h
        · exact absurd h (by simp)
        · rename_i hcap
          simp only [Except.ok.injEq, Prod.mk.injEq] at h
          obtain ⟨hdb, hmsg⟩ := h
          subst hdb
          exact ⟨activity, student, hA,
            Option.not_isSome_iff_eq_none.mp hdup,
            Nat.lt_of_not_le hcap, rfl, rfl, rfl, rfl, hmsg.symm,
            Or.inl ⟨hS, rfl, rfl⟩⟩
    · rename_i hS
      unfold signupChecks at h
      split at h
      · exact absurd h (by simp)
      · rename_i hdup
        split at h
        · exact absurd h (by simp)
        · rename_i hcap
          simp only [Except.ok.injEq, Prod.mk.injEq] at h
          obtain ⟨hdb, hmsg⟩ := h
          subst hdb
          refine ⟨activity, { id := db.nextStudentId, email := email }, hA,
            ?_, ?_, rfl, rfl, rfl, rfl, hmsg.symm,
            Or.inr ⟨hS, rfl, rfl, rfl⟩⟩
          · exact Option.not_isSome_iff_eq_none.mp hdup
          · exact Nat.lt_of_not_le hcap

/-- Everything a successful `unregister_from_activity` call tells us. -/
theorem unregister_ok_elim {activity_name email msg : String} {db db' : DB}
    (h : unregister_from_activity activity_name email db = .ok (db', msg)) :
    ∃ activity student participation,
      findActivity db activity_name = some activity ∧
      findStudent db email = some student ∧
      findParticipation db student.id activity.id = some participation ∧
      msg = "Unregistered " ++ email ++ " from " ++ activity_name ∧
      db' = { db with
              participations := db.participations.filter
                (fun p => p.id != participation.id) } := by
  unfold unregister_from_activity at h
  split at h
  · exact absurd h (by simp)
  · rename_i activity hA
    split at h
    · exact absurd h (by simp)
    · rename_i student hS
      split at h
      · exact absurd h (by simp)
      · rename_i participation hP
        simp only [Except.ok.injEq, Prod.mk.injEq] at h
        obtain ⟨hdb, hmsg⟩ := h
        exact ⟨activity, student, participation, hA, hS, hP, hmsg.symm, hdb.symm⟩

/-! ### Capacity invariant machinery (claim C1) -/

theorem participantCount_append_single {db db' : DB} {p : Participation}
    (h : db'.participations = db.participations ++ [p]) (aid : Nat) :
    participantCount db' aid =
      participantCount db aid + (if p.activity_id = aid then 1 else 0) := by
  unfold participantCount
  rw [h, List.filter_append, List.length_append]
  by_cases hp : p.activity_id = aid
  · simp [hp]
  · simp [hp]

theorem participantCount_le_of_filter {db db' : DB} {keep : Participation → Bool}
    (h : db'.participations = db.participations.filter keep) (aid : Nat) :
    participantCount db' aid ≤ participantCount db aid := by
  unfold participantCount
  rw [h]
  exact ((List.filter_sublist _).filter _).length_le

/-- A committed `signup` preserves the capacity invariant, as long as
activity ids are unique (they are primary keys). -/
theorem signup_preserves_capOk {n e msg : String} {db db' : DB}
    (hids : (db.activities.map (fun a => a.id)).Nodup) (hcap : CapOk db)
    (h : signup_for_activity n e db = .ok (db', msg)) : CapOk db' := by
  obtain ⟨activity, student, hA, _, hlt, hacts, hparts, _, _, _, _⟩ :=
    signup_ok_elim h
  intro a ha
  rw [hacts] at ha
  have hmemA : activity ∈ db.activities :=
    List.mem_of_find?_eq_some hA
  by_cases heq : activity.id = a.id
  · have haeq : a = activity :=
      List.inj_on_of_nodup_map hids ha hmemA heq.symm
    rw [haeq]
    have h1 : participantCount db' activity.id =
        participantCount db activity.id + 1 := by
      rw [participantCount_append_single hparts]; simp
    omega
  · have h1 : participantCount db' a.id = participantCount db a.id := by
      rw [participantCount_append_single hparts]; simp [heq]
    rw [h1]
    exact hcap a ha

/-- A committed `unregister` preserves the capacity invariant. -/
theorem unregister_preserves_capOk {n e msg : String} {db db' : DB}
    (hcap : CapOk db)
    (h : unregister_from_activity n e db = .ok (db', msg)) : CapOk db' := by
  obtain ⟨activity, student, participation, _, _, _, _, hdb⟩ :=
    unregister_ok_elim h
  intro a ha
  have hacts : db'.activities = db.activities := by rw [hdb]
  have hparts : db'.participations =
      db.participations.filter (fun p => p.id != participation.id) := by
    rw [hdb]
  rw [hacts] at ha
  exact le_trans (participantCount_le_of_filter hparts a.id) (hcap a ha)

theorem signup_preserves_activities {n e msg : String} {db db' : DB}
    (h : signup_for_activity n e db = .ok (db', msg)) :
    db'.activities = db.activities := by
  obtain ⟨_, _, _, _, _, hacts, _⟩ := signup_ok_elim h
  exact hacts

theorem unregister_preserves_activities {n e msg : String} {db db' : DB}
    (h : unregister_from_activity n e db = .ok (db', msg)) :
    db'.activities = db.activities := by
  obtain ⟨_, _, _, _, _, _, _, hdb⟩ := unregister_ok_elim h
  rw [hdb]

theorem runSignup_preserves_inv {n e : String} {db : DB}
    (hids : (db.activities.map (fun a => a.id)).Nodup) (hcap : CapOk db) :
    ((runSignup n e db).activities.map (fun a => a.id)).Nodup ∧
      CapOk (runSignup n e db) := by
  unfold runSignup
  split
  · rename_i db' msg h
    exact ⟨by rw [signup_preserves_activities h]; exact hids,
      signup_preserves_capOk hids hcap h⟩
  · exact ⟨hids, hcap⟩

theorem runUnregister_preserves_inv {n e : String} {db : DB}
    (hids : (db.activities.map (fun a => a.id)).Nodup) (hcap : CapOk db) :
    ((runUnregister n e db).activities.map (fun a => a.id)).Nodup ∧
      CapOk (runUnregister n e db) := by
  unfold runUnregister
  split
  · rename_i db' msg h
    exact ⟨by rw [unregister_preserves_activities h]; exact hids,
      unregister_preserves_capOk hcap h⟩
  · exact ⟨hids, hcap⟩

/-- One full request preserves uniqueness of activity ids together with
the capacity invariant. -/
theorem applyOp_preserves_inv (db : DB) (op : Op)
    (hids : (db.activities.map (fun a => a.id)).Nodup) (hcap : CapOk db) :
    ((applyOp db op).activities.map (fun a => a.id)).Nodup ∧
      CapOk (applyOp db op) := by
  cases op with
  | signup n e =>
    simp only [applyOp]
    exact runSignup_preserves_inv hids hcap
  | unregister n e =>
    simp only [applyOp]
    exact runUnregister_preserves_inv hids hcap

theorem runOps_preserves_inv {db : DB} (ops : List Op)
    (hids : (db.activities.map (fun a => a.id)).Nodup) (hcap : CapOk db) :
    ((runOps db ops).activities.map (fun a => a.id)).Nodup ∧
      CapOk (runOps db ops) := by
  induction ops generalizing db with
  | nil => exact ⟨hids, hcap⟩
  | cons op ops ih =>
    have h := applyOp_preserves_inv db op hids hcap
    exact ih h.1 h.2

/-- C1: for every activity with configured maximum capacity M, after any
sequence of API calls (each committing only when its own checks passed,
and leaving the store untouched when it failed), the participant count
reported for that activity by `get_activities` never exceeds M — given
that activity ids are unique and the starting store already satisfies the
capacity bound. -/
theorem C1_capacity_never_exceeded (db : DB) (ops : List Op)
    (hids : (db.activities.map (fun a => a.id)).Nodup)
    (hcap : ∀ a ∈ db.activities, participantCount db a.id ≤ a.max_participants)
    (name : String) (info : ActivityInfo)
    (hmem : (name, info) ∈ get_activities (runOps db ops)) :
    info.participants ≤ info.max_participants := by
  obtain ⟨_, hcap'⟩ := runOps_preserves_inv ops hids hcap
  unfold get_activities at hmem
  obtain ⟨a, ha, heq⟩ := List.mem_map.mp hmem
  injection heq with hn hi
  subst hi
  simpa using hcap' a ha

/-- The record `GET /activities` reports for the seeded Chess Club after
one successful signup on the freshly initialized store. -/
def chessInfoAfterOneSignup : ActivityInfo :=
  { description := "Learn strategies and compete in chess tournaments",
    schedule := "Fridays, 3:30 PM - 5:00 PM",
    max_participants := 12, participants := 1 }

theorem C1_capacity_never_exceeded_witness :
    ((init_db emptyDB).activities.map (fun a => a.id)).Nodup ∧
    (∀ a ∈ (init_db emptyDB).activities,
      participantCount (init_db emptyDB) a.id ≤ a.max_participants) ∧
    ("Chess Club", chessInfoAfterOneSignup) ∈
      get_activities (runOps (init_db emptyDB)
        [Op.signup "Chess Club" "newcomer@mergington.edu"]) ∧
    chessInfoAfterOneSignup.participants ≤
      chessInfoAfterOneSignup.max_participants :=
  ⟨by decide, by decide, by decide,
   C1_capacity_never_exceeded (init_db emptyDB)
     [Op.signup "Chess Club" "newcomer@mergington.edu"] (by decide) (by decide)
     "Chess Club" chessInfoAfterOneSignup (by decide)⟩

/-- C5: `init_db` is idempotent: with any activity row already stored it
changes nothing, and running it twice from a fresh store equals running
it once. -/
theorem C5_init_db_idempotent :
    (∀ db : DB, db.activities ≠ [] → init_db db = db) ∧
    init_db (init_db emptyDB) = init_db emptyDB := by
  constructor
  · intro db h
    unfold init_db
    cases hA : db.activities with
    | nil => exact absurd hA h
    | cons x xs => rfl
  · decide

theorem C5_init_db_idempotent_witness :
    (init_db emptyDB).activities ≠ [] ∧
    init_db (init_db emptyDB) = init_db emptyDB :=
  ⟨by decide, C5_init_db_idempotent.left (init_db emptyDB) (by decide)⟩

/-- C6: `unregister` fails with 404 "Activity not found" when the
activity is absent, 404 "Student not found" when the student is absent,
400 (conflict) when the pair has no participation, and any failing call
leaves the persisted store unchanged. -/
theorem C6_unregister_failure_modes (db : DB) (n e : String) :
    (findActivity db n = none →
      unregister_from_activity n e db =
        .error { status_code := 404, detail := "Activity not found" }) ∧
    (∀ a, findActivity db n = some a → findStudent db e = none →
      unregister_from_activity n e db =
        .error { status_code := 404, detail := "Student not found" }) ∧
    (∀ a s, findActivity db n = some a → findStudent db e = some s →
      findParticipation db s.id a.id = none →
      unregister_from_activity n e db =
        .error { status_code := 400,
                 detail := "Student is not signed up for this activity" }) ∧
    (∀ err, unregister_from_activity n e db = .error err →
      runUnregister n e db = db) := by
  refine ⟨?_, ?_, ?_, ?_⟩
  · intro h
    unfold unregister_from_activity
    rw [h]
  · intro a hA hS
    unfold unregister_from_activity
    rw [hA, hS]
  · intro a s hA hS hP
    unfold unregister_from_activity
    simp only [hA, hS, hP]
  · intro err h
    unfold runUnregister
    rw [h]

theorem C6_unregister_failure_modes_witness :
    unregister_from_activity "Chess Club" "x@e.edu" emptyDB =
      .error { status_code := 404, detail := "Activity not found" } ∧
    unregister_from_activity "Chess Club" "ghost@mergington.edu"
        (init_db emptyDB) =
      .error { status_code := 404, detail := "Student not found" } ∧
    unregister_from_activity "Math Club" "maria@e.edu"
        (runSignup "Chess Club" "maria@e.edu" (init_db emptyDB)) =
      .error { status_code := 400,
               detail := "Student is not signed up for this activity" } ∧
    runUnregister "Chess Club" "x@e.edu" emptyDB = emptyDB :=
  ⟨(C6_unregister_failure_modes emptyDB "Chess Club" "x@e.edu").1 (by decide),
   (C6_unregister_failure_modes (init_db emptyDB) "Chess Club"
      "ghost@mergington.edu").2.1
     { id := 1, name := "Chess Club",
       description := "Learn strategies and compete in chess tournaments",
       schedule := "Fridays, 3:30 PM - 5:00 PM", max_participants := 12 }
     (by decide) (by decide),
   (C6_unregister_failure_modes
      (runSignup "Chess Club" "maria@e.edu" (init_db emptyDB)) "Math Club"
      "maria@e.edu").2.2.1
     { id := 8, name := "Math Club",
       description :=
         "Solve challenging problems and participate in math competitions",
       schedule := "Tuesdays, 3:30 PM - 4:30 PM", max_participants := 10 }
     { id := 1, email := "maria@e.edu" }
     (by decide) (by decide) (by decide),
   (C6_unregister_failure_modes emptyDB "Chess Club" "x@e.edu").2.2.2
     { status_code := 404, detail := "Activity not found" } (by rfl)⟩

/-- Every error `signupChecks` can produce carries status 400. -/
theorem signupChecks_error_status {an em : String} {activity : Activity}
    {student : Student} {db : DB} {err : HTTPException}
    (h : signupChecks an em activity student db = .error err) :
    err.status_code = 400 := by
  unfold signupChecks at h
  split at h
  · simp only [Except.error.injEq] at h
    subst h
    rfl
  · split at h
    · simp only [Except.error.injEq] at h
      subst h
      rfl
    · exact absurd h (by simp)

/-- C7: `signup` fails with 404 exactly when no activity with the given
name exists, and such a failure changes nothing in the store (no student
created, no participation inserted). -/
theorem C7_signup_notfound_iff (db : DB) (n e : String) :
    (findActivity db n = none →
      signup_for_activity n e db =
        .error { status_code := 404, detail := "Activity not found" } ∧
      runSignup n e db = db) ∧
    (∀ err, signup_for_activity n e db = .error err → err.status_code = 404 →
      findActivity db n = none) := by
  constructor
  · intro h
    have h1 : signup_for_activity n e db =
        .error { status_code := 404, detail := "Activity not found" } := by
      unfold signup_for_activity
      rw [h]
    refine ⟨h1, ?_⟩
    unfold runSignup
    rw [h1]
  · intro err herr h404
    unfold signup_for_activity at herr
    split at herr
    · rename_i hA
      exact hA
    · rename_i a hA
      split at herr
      · rename_i s hS
        have h400 := signupChecks_error_status herr
        exfalso
        omega
      · rename_i hS
        have h400 := signupChecks_error_status herr
        exfalso
        omega

theorem C7_signup_notfound_iff_witness :
    (signup_for_activity "Chess Club" "x@e.edu" emptyDB =
       .error { status_code := 404, detail := "Activity not found" } ∧
     runSignup "Chess Club" "x@e.edu" emptyDB = emptyDB) ∧
    findActivity emptyDB "Chess Club" = none :=
  ⟨(C7_signup_notfound_iff emptyDB "Chess Club" "x@e.edu").1 (by decide),
   (C7_signup_notfound_iff emptyDB "Chess Club" "x@e.edu").2
     { status_code := 404, detail := "Activity not found" } (by rfl) (by rfl)⟩

/-- C9: when the student already participates and the activity is also
full, `signup` reports the duplicate-signup conflict, not the capacity
conflict: the duplicate check runs first. -/
theorem C9_duplicate_checked_before_capacity {db : DB} {n e : String}
    {a : Activity} {s : Student}
    (hA : findActivity db n = some a)
    (hS : findStudent db e = some s)
    (hdup : (findParticipation db s.id a.id).isSome = true)
    (_hfull : participantCount db a.id ≥ a.max_participants) :
    signup_for_activity n e db =
      .error { status_code := 400,
               detail := "Student is already signed up for this activity" } := by
  have hsteps : signup_for_activity n e db = signupChecks n e a s db := by
    unfold signup_for_activity
    rw [hA, hS]
  rw [hsteps]
  unfold signupChecks
  rw [if_pos hdup]

/-- A one-activity store whose only activity is at capacity and whose
only student already holds the single slot. -/
def fullPairDB : DB :=
  { students := [{ id := 1, email := "alice@e.edu" }],
    activities := [{ id := 1, name := "Tiny Club", description := "d",
                     schedule := "s", max_participants := 1 }],
    participations := [{ id := 1, student_id := 1, activity_id := 1 }],
    nextStudentId := 2, nextActivityId := 2, nextParticipationId := 2 }

theorem C9_duplicate_checked_before_capacity_witness :
    (findParticipation fullPairDB 1 1).isSome = true ∧
    participantCount fullPairDB 1 ≥ 1 ∧
    signup_for_activity "Tiny Club" "alice@e.edu" fullPairDB =
      .error { status_code := 400,
               detail := "Student is already signed up for this activity" } :=
  ⟨by decide, by decide,
   @C9_duplicate_checked_before_capacity fullPairDB "Tiny Club" "alice@e.edu"
     { id := 1, name := "Tiny Club", description := "d", schedule := "s",
       max_participants := 1 }
     { id := 1, email := "alice@e.edu" }
     (by decide) (by decide) (by decide) (by decide)⟩

/-- A one-activity store at capacity: one student holds the single slot
of "Tiny Club" and no student with email "bob@e.edu" exists. -/
def tinyFullDB : DB :=
  { students := [{ id := 1, email := "alice@e.edu" }],
    activities := [{ id := 1, name := "Tiny Club", description := "d",
                     schedule := "s", max_participants := 1 }],
    participations := [{ id := 1, student_id := 1, activity_id := 1 }],
    nextStudentId := 2, nextActivityId := 2, nextParticipationId := 2 }

/-- C2 counterexample: a signup that resolves the activity, finds no
student with the email, creates one, and then fails the capacity check —
yet after the failed call the persisted store is unchanged and still has
no student with that email.  The session is closed without commit
(`get_db`), so the flushed student row is rolled back, contrary to the
claim that it remains. -/
theorem C2_counterexample :
    findActivity tinyFullDB "Tiny Club" =
      some { id := 1, name := "Tiny Club", description := "d",
             schedule := "s", max_participants := 1 } ∧
    findStudent tinyFullDB "bob@e.edu" = none ∧
    signup_for_activity "Tiny Club" "bob@e.edu" tinyFullDB =
      .error { status_code := 400, detail := "Activity is full" } ∧
    runSignup "Tiny Club" "bob@e.edu" tinyFullDB = tinyFullDB ∧
    findStudent (runSignup "Tiny Club" "bob@e.edu" tinyFullDB) "bob@e.edu" =
      none :=
  ⟨rfl, rfl, rfl, rfl, rfl⟩

/-- C2 (amended): when signup resolves an existing activity, finds no
student with the email, creates one, and the call then fails a later
check, the newly created student row does **not** remain in the persisted
store: the session closes without commit, the creation is rolled back,
and the store is unchanged. -/
theorem C2_failed_signup_rolls_back_created_student {db : DB} {n e : String}
    {a : Activity} {err : HTTPException}
    (_hA : findActivity db n = some a)
    (hS : findStudent db e = none)
    (herr : signup_for_activity n e db = .error err) :
    runSignup n e db = db ∧ findStudent (runSignup n e db) e = none := by
  have hrun : runSignup n e db = db := by
    unfold runSignup
    rw [herr]
  refine ⟨hrun, ?_⟩
  rw [hrun]
  exact hS

theorem C2_failed_signup_rolls_back_created_student_witness :
    runSignup "Tiny Club" "bob@e.edu" tinyFullDB = tinyFullDB ∧
    findStudent (runSignup "Tiny Club" "bob@e.edu" tinyFullDB) "bob@e.edu" =
      none :=
  @C2_failed_signup_rolls_back_created_student tinyFullDB "Tiny Club"
    "bob@e.edu"
    { id := 1, name := "Tiny Club", description := "d", schedule := "s",
      max_participants := 1 }
    { status_code := 400, detail := "Activity is full" }
    (by rfl) (by rfl) (by rfl)

theorem pairCount_eq_zero_iff {db : DB} {sid aid : Nat} :
    pairCount db sid aid = 0 ↔ findParticipation db sid aid = none := by
  unfold pairCount findParticipation
  rw [List.length_eq_zero, List.filter_eq_nil_iff, List.find?_eq_none]

/-- A signup whose activity exists, whose activity has a free slot, and
whose (resolved student, activity) pair has no participation yet,
commits: it returns the confirmation, and the committed store has the
same activities, resolves the email to a stored student carrying the
resolved id, and has exactly the one new participation row appended. -/
theorem signup_first_call (n e : String) {db : DB} {a : Activity}
    (hA : findActivity db n = some a)
    (hcap : participantCount db a.id < a.max_participants)
    (hfp : findParticipation db (resolvedStudentId db e) a.id = none) :
    signup_for_activity n e db =
      .ok (runSignup n e db, "Signed up " ++ e ++ " for " ++ n) ∧
    findActivity (runSignup n e db) n = some a ∧
    (∃ s : Student, findStudent (runSignup n e db) e = some s ∧
      s.id = resolvedStudentId db e) ∧
    (runSignup n e db).participations =
      db.participations ++
        [{ id := db.nextParticipationId,
           student_id := resolvedStudentId db e, activity_id := a.id }] := by
  cases hS : findStudent db e with
  | some s =>
    have hsid : resolvedStudentId db e = s.id := by
      unfold resolvedStudentId
      rw [hS]
    rw [hsid] at hfp
    have c1 : ¬((findParticipation db s.id a.id).isSome = true) := by
      rw [hfp]; simp
    have c2 : ¬(participantCount db a.id ≥ a.max_participants) :=
      Nat.not_le.mpr hcap
    have hfull : signup_for_activity n e db =
        .ok ({ db with
               participations := db.participations ++
                 [{ id := db.nextParticipationId, student_id := s.id,
                    activity_id := a.id }],
               nextParticipationId := db.nextParticipationId + 1 },
             "Signed up " ++ e ++ " for " ++ n) := by
      unfold signup_for_activity
      simp only [hA, hS]
      unfold signupChecks
      rw [if_neg c1, if_neg c2]
    have hrun : runSignup n e db =
        { db with
          participations := db.participations ++
            [{ id := db.nextParticipationId, student_id := s.id,
               activity_id := a.id }],
          nextParticipationId := db.nextParticipationId + 1 } := by
      unfold runSignup
      rw [hfull]
    refine ⟨by rw [hfull, hrun], ?_, ⟨s, ?_, hsid.symm⟩, ?_⟩
    · rw [hrun]; exact hA
    · rw [hrun]; exact hS
    · rw [hrun, hsid]
  | none =>
    have hsid : resolvedStudentId db e = db.nextStudentId := by
      unfold resolvedStudentId
      rw [hS]
    rw [hsid] at hfp
    have c1 : ¬((findParticipation
        { db with
          students := db.students ++ [{ id := db.nextStudentId, email := e }],
          nextStudentId := db.nextStudentId + 1 }
        ({ id := db.nextStudentId, email := e } : Student).id a.id).isSome =
          true) := by
      have h' : findParticipation
          { db with
            students := db.students ++ [{ id := db.nextStudentId, email := e }],
            nextStudentId := db.nextStudentId + 1 }
          ({ id := db.nextStudentId, email := e } : Student).id a.id = none := hfp
      rw [h']; simp
    have c2 : ¬(participantCount
        { db with
          students := db.students ++ [{ id := db.nextStudentId, email := e }],
          nextStudentId := db.nextStudentId + 1 } a.id ≥ a.max_participants) :=
      Nat.not_le.mpr hcap
    have hfull : signup_for_activity n e db =
        .ok ({ db with
               students := db.students ++
                 [{ id := db.nextStudentId, email := e }],
               nextStudentId := db.nextStudentId + 1,
               participations := db.participations ++
                 [{ id := db.nextParticipationId,
                    student_id := db.nextStudentId, activity_id := a.id }],
               nextParticipationId := db.nextParticipationId + 1 },
             "Signed up " ++ e ++ " for " ++ n) := by
      unfold signup_for_activity
      simp only [hA, hS]
      unfold signupChecks
      rw [if_neg c1, if_neg c2]
    have hrun : runSignup n e db =
        { db with
          students := db.students ++ [{ id := db.nextStudentId, email := e }],
          nextStudentId := db.nextStudentId + 1,
          participations := db.participations ++
            [{ id := db.nextParticipationId,
               student_id := db.nextStudentId, activity_id := a.id }],
          nextParticipationId := db.nextParticipationId + 1 } := by
      unfold runSignup
      rw [hfull]
    refine ⟨by rw [hfull, hrun], ?_,
      ⟨{ id := db.nextStudentId, email := e }, ?_, hsid.symm⟩, ?_⟩
    · rw [hrun]; exact hA
    · rw [hrun]
      unfold findStudent
      show (db.students ++ [({ id := db.nextStudentId, email := e } : Student)]).find?
        (fun s : Student => s.email == e) = _
      rw [List.find?_append]
      have h0 : db.students.find? (fun s => s.email == e) = none := by
        unfold findStudent at hS
        exact hS
      rw [h0, Option.none_or]
      simp [List.find?]
    · rw [hrun, hsid]

/-- C3: on a store where the activity exists, has a free slot, and the
(student, activity) pair has no participation, signing up twice with the
same name and email succeeds once, then fails with the 400 conflict, and
afterwards at most one participation row exists for the pair. -/
theorem C3_double_signup {db : DB} {n e : String} {a : Activity}
    (hA : findActivity db n = some a)
    (hcap : participantCount db a.id < a.max_participants)
    (hpair : pairCount db (resolvedStudentId db e) a.id = 0) :
    signup_for_activity n e db =
      .ok (runSignup n e db, "Signed up " ++ e ++ " for " ++ n) ∧
    signup_for_activity n e (runSignup n e db) =
      .error { status_code := 400,
               detail := "Student is already signed up for this activity" } ∧
    pairCount (runSignup n e db)
      (resolvedStudentId (runSignup n e db) e) a.id ≤ 1 := by
  have hfp : findParticipation db (resolvedStudentId db e) a.id = none :=
    pairCount_eq_zero_iff.mp hpair
  obtain ⟨hfull, hA1, ⟨s, hS1, hsid⟩, hparts1⟩ := signup_first_call n e hA hcap hfp
  have hzero : (db.participations.filter
      (fun p => p.student_id == s.id && p.activity_id == a.id)).length = 0 := by
    have h' := hpair
    unfold pairCount at h'
    rw [hsid]
    exact h'
  have hfind0 : db.participations.find?
      (fun p => p.student_id == s.id && p.activity_id == a.id) = none := by
    rw [List.find?_eq_none]
    intro p hp
    have := (List.filter_eq_nil_iff.mp (List.length_eq_zero.mp hzero)) p hp
    simpa using this
  have hp2 : findParticipation (runSignup n e db) s.id a.id =
      some { id := db.nextParticipationId,
             student_id := resolvedStudentId db e, activity_id := a.id } := by
    unfold findParticipation
    rw [hparts1, List.find?_append, hfind0, Option.none_or]
    simp [List.find?, hsid]
  refine ⟨hfull, ?_, ?_⟩
  · have hchecks2 : signup_for_activity n e (runSignup n e db) =
        signupChecks n e a s (runSignup n e db) := by
      unfold signup_for_activity
      simp only [hA1, hS1]
    rw [hchecks2]
    unfold signupChecks
    rw [if_pos (by rw [hp2]; rfl)]
  · have hsid2 : resolvedStudentId (runSignup n e db) e = s.id := by
      unfold resolvedStudentId
      rw [hS1]
    rw [hsid2]
    unfold pairCount
    rw [hparts1, List.filter_append, List.length_append, hzero]
    have hle := List.length_filter_le
      (fun p => p.student_id == s.id && p.activity_id == a.id)
      [({ id := db.nextParticipationId,
          student_id := resolvedStudentId db e, activity_id := a.id } :
        Participation)]
    simp only [List.length_cons, List.length_nil] at hle
    omega

/-- A one-activity store with free capacity and no students. -/
def openClubDB : DB :=
  { students := [],
    activities := [{ id := 1, name := "Open Club", description := "d",
                     schedule := "s", max_participants := 3 }],
    participations := [],
    nextStudentId := 1, nextActivityId := 2, nextParticipationId := 1 }

theorem C3_double_signup_witness :
    participantCount openClubDB 1 < 3 ∧
    pairCount openClubDB (resolvedStudentId openClubDB "bob@e.edu") 1 = 0 ∧
    signup_for_activity "Open Club" "bob@e.edu" openClubDB =
      .ok (runSignup "Open Club" "bob@e.edu" openClubDB,
           "Signed up bob@e.edu for Open Club") ∧
    signup_for_activity "Open Club" "bob@e.edu"
        (runSignup "Open Club" "bob@e.edu" openClubDB) =
      .error { status_code := 400,
               detail := "Student is already signed up for this activity" } ∧
    pairCount (runSignup "Open Club" "bob@e.edu" openClubDB)
      (resolvedStudentId (runSignup "Open Club" "bob@e.edu" openClubDB)
        "bob@e.edu") 1 ≤ 1 := by
  have h := @C3_double_signup openClubDB "Open Club" "bob@e.edu"
    { id := 1, name := "Open Club", description := "d", schedule := "s",
      max_participants := 3 }
    (by rfl) (by decide) (by decide)
  exact ⟨by decide, by decide, h.1, h.2.1, h.2.2⟩

/-- C4: whenever a signup commits, the matching unregister on the
resulting store succeeds and brings the activity's reported participant
count back to its pre-signup value — given fresh participation ids
(autoincrement). -/
theorem C4_signup_unregister_roundtrip {db db1 : DB} {n e m1 : String}
    (hfresh : ∀ p ∈ db.participations, p.id < db.nextParticipationId)
    (hok : signup_for_activity n e db = .ok (db1, m1)) :
    unregister_from_activity n e db1 =
      .ok (runUnregister n e db1, "Unregistered " ++ e ++ " from " ++ n) ∧
    reportedParticipants (runUnregister n e db1) n =
      reportedParticipants db n := by
  obtain ⟨a, s, hA, hdup, _, hacts, hparts, _, _, _, hstu⟩ := signup_ok_elim hok
  have hA1 : findActivity db1 n = some a := by
    rw [findActivity_congr hacts]
    exact hA
  have hS1 : findStudent db1 e = some s := by
    rcases hstu with ⟨hS, hsts, _⟩ | ⟨hS, hseq, hsts, _⟩
    · rw [findStudent_congr hsts]
      exact hS
    · unfold findStudent
      rw [hsts, List.find?_append]
      have h0 : db.students.find? (fun t => t.email == e) = none := by
        unfold findStudent at hS
        exact hS
      rw [h0, Option.none_or]
      subst hseq
      simp [List.find?]
  have hfindP : findParticipation db1 s.id a.id =
      some { id := db.nextParticipationId, student_id := s.id,
             activity_id := a.id } := by
    unfold findParticipation
    rw [hparts, List.find?_append]
    have h0 : db.participations.find?
        (fun q => q.student_id == s.id && q.activity_id == a.id) = none := by
      unfold findParticipation at hdup
      exact hdup
    rw [h0, Option.none_or]
    simp [List.find?]
  have hunreg : unregister_from_activity n e db1 =
      .ok ({ db1 with
             participations := db1.participations.filter
               (fun q => q.id != ({ id := db.nextParticipationId,
                                    student_id := s.id,
                                    activity_id := a.id } :
                                  Participation).id) },
           "Unregistered " ++ e ++ " from " ++ n) := by
    unfold unregister_from_activity
    simp only [hA1, hS1, hfindP]
  have hrun : runUnregister n e db1 =
      { db1 with
        participations := db1.participations.filter
          (fun q => q.id != ({ id := db.nextParticipationId,
                               student_id := s.id,
                               activity_id := a.id } : Participation).id) } := by
    unfold runUnregister
    rw [hunreg]
  refine ⟨by rw [hunreg, hrun], ?_⟩
  rw [hrun]
  have hD2parts :
      db1.participations.filter
        (fun q => q.id != ({ id := db.nextParticipationId,
                             student_id := s.id,
                             activity_id := a.id } : Participation).id) =
      db.participations := by
    rw [hparts, List.filter_append]
    have h1 : db.participations.filter
        (fun q => q.id != ({ id := db.nextParticipationId,
                             student_id := s.id,
                             activity_id := a.id } : Participation).id) =
        db.participations := by
      rw [List.filter_eq_self]
      intro q hq
      have hil := hfresh q hq
      simp only [bne_iff_ne]
      omega
    rw [h1]
    simp
  unfold reportedParticipants
  rw [get_activities_congr (by exact hacts) (by exact hD2parts)]

theorem C4_signup_unregister_roundtrip_witness :
    (∀ p ∈ (init_db emptyDB).participations,
      p.id < (init_db emptyDB).nextParticipationId) ∧
    signup_for_activity "Chess Club" "x@e.edu" (init_db emptyDB) =
      .ok (runSignup "Chess Club" "x@e.edu" (init_db emptyDB),
           "Signed up x@e.edu for Chess Club") ∧
    unregister_from_activity "Chess Club" "x@e.edu"
        (runSignup "Chess Club" "x@e.edu" (init_db emptyDB)) =
      .ok (runUnregister "Chess Club" "x@e.edu"
             (runSignup "Chess Club" "x@e.edu" (init_db emptyDB)),
           "Unregistered x@e.edu from Chess Club") ∧
    reportedParticipants
        (runUnregister "Chess Club" "x@e.edu"
          (runSignup "Chess Club" "x@e.edu" (init_db emptyDB))) "Chess Club" =
      reportedParticipants (init_db emptyDB) "Chess Club" := by
  have h := @C4_signup_unregister_roundtrip (init_db emptyDB)
    (runSignup "Chess Club" "x@e.edu" (init_db emptyDB)) "Chess Club"
    "x@e.edu" "Signed up x@e.edu for Chess Club" (by decide) (by rfl)
  exact ⟨by decide, by rfl, h.1, h.2⟩

/-- C8: `get_activities` maps every stored activity to its name paired
with exactly its description, schedule, capacity, and the live count of
its participation rows; every entry of the result arises that way; and
the result carries no participant identities — it does not depend on the
students table at all. -/
theorem C8_get_activities_shape (db : DB) :
    (∀ a ∈ db.activities,
      ((a.name,
        { description := a.description, schedule := a.schedule,
          max_participants := a.max_participants,
          participants :=
            db.participations.countP (fun p => p.activity_id == a.id) }) :
        String × ActivityInfo) ∈ get_activities db) ∧
    (∀ pr ∈ get_activities db, ∃ a ∈ db.activities,
      pr = (a.name,
        { description := a.description, schedule := a.schedule,
          max_participants := a.max_participants,
          participants :=
            db.participations.countP (fun p => p.activity_id == a.id) })) ∧
    (∀ (students : List Student) (k : Nat),
      get_activities { db with students := students, nextStudentId := k } =
        get_activities db) := by
  have hcnt : ∀ aid : Nat, participantCount db aid =
      db.participations.countP (fun p => p.activity_id == aid) := by
    intro aid
    unfold participantCount
    rw [List.countP_eq_length_filter]
  refine ⟨?_, ?_, ?_⟩
  · intro a ha
    unfold get_activities
    refine List.mem_map.mpr ⟨a, ha, ?_⟩
    rw [hcnt]
  · intro pr hpr
    unfold get_activities at hpr
    obtain ⟨a, ha, heq⟩ := List.mem_map.mp hpr
    refine ⟨a, ha, ?_⟩
    rw [← heq, hcnt]
  · intro students k
    rfl

theorem C8_get_activities_shape_witness :
    (("Chess Club",
      ({ description := "Learn strategies and compete in chess tournaments",
         schedule := "Fridays, 3:30 PM - 5:00 PM",
         max_participants := 12, participants := 0 } : ActivityInfo)) ∈
      get_activities (init_db emptyDB)) ∧
    (∃ a ∈ (init_db emptyDB).activities,
      (("Chess Club",
        ({ description := "Learn strategies and compete in chess tournaments",
           schedule := "Fridays, 3:30 PM - 5:00 PM",
           max_participants := 12, participants := 0 } : ActivityInfo)) :
        String × ActivityInfo) =
        (a.name,
         { description := a.description, schedule := a.schedule,
           max_participants := a.max_participants,
           participants :=
             (init_db emptyDB).participations.countP
               (fun p => p.activity_id == a.id) })) ∧
    get_activities
        { init_db emptyDB with
          students := [{ id := 7, email := "z@e.edu" }], nextStudentId := 8 } =
      get_activities (init_db emptyDB) := by
  have h := C8_get_activities_shape (init_db emptyDB)
  refine ⟨?_, ?_, h.2.2 [{ id := 7, email := "z@e.edu" }] 8⟩
  · exact h.1
      { id := 1, name := "Chess Club",
        description := "Learn strategies and compete in chess tournaments",
        schedule := "Fridays, 3:30 PM - 5:00 PM", max_participants := 12 }
      (by decide)
  · exact h.2.1
      ("Chess Club",
       { description := "Learn strategies and compete in chess tournaments",
         schedule := "Fridays, 3:30 PM - 5:00 PM",
         max_participants := 12, participants := 0 })
      (by decide)

/-- Deleting by a primary key that occurs in a list with pairwise
distinct ids removes exactly one row. -/
theorem length_filter_ne_id_of_nodup {l : List Participation}
    {p : Participation} (hn : (l.map (fun q => q.id)).Nodup) (hp : p ∈ l) :
    (l.filter (fun q => q.id != p.id)).length + 1 = l.length := by
  induction l with
  | nil => cases hp
  | cons x xs ih =>
    simp only [List.map_cons, List.nodup_cons] at hn
    obtain ⟨hx, hxs⟩ := hn
    rcases List.mem_cons.mp hp with hpx | hpxs
    · subst hpx
      have hxsfilter : xs.filter (fun q => q.id != p.id) = xs := by
        rw [List.filter_eq_self]
        intro q hq
        have hne : q.id ≠ p.id := by
          intro hqe
          exact hx (hqe ▸ List.mem_map_of_mem (fun q => q.id) hq)
        simpa [bne_iff_ne] using hne
      simp [List.filter_cons, hxsfilter]
    · have hxp : (x.id != p.id) = true := by
        have hne : x.id ≠ p.id := by
          intro hq
          exact hx (hq ▸ List.mem_map_of_mem (fun q => q.id) hpxs)
        simpa [bne_iff_ne] using hne
      have h' := ih hxs hpxs
      simp only [List.filter_cons, hxp, if_pos, List.length_cons]
      omega

/-- C10: a committed `unregister` deletes exactly the participation row
of the resolved (student, activity) pair and leaves every other
participation row, every student row, and every activity row unchanged —
given pairwise distinct participation ids (primary keys). -/
theorem C10_unregister_deletes_exactly_one {db db' : DB} {n e msg : String}
    (hids : (db.participations.map (fun p => p.id)).Nodup)
    (hok : unregister_from_activity n e db = .ok (db', msg)) :
    db'.students = db.students ∧
    db'.activities = db.activities ∧
    ∃ a s p, findActivity db n = some a ∧ findStudent db e = some s ∧
      p ∈ db.participations ∧ p.student_id = s.id ∧ p.activity_id = a.id ∧
      p ∉ db'.participations ∧
      (∀ q ∈ db.participations, q ≠ p → q ∈ db'.participations) ∧
      (∀ q ∈ db'.participations, q ∈ db.participations) ∧
      db'.participations.length + 1 = db.participations.length := by
  obtain ⟨a, s, p, hA, hS, hP, _, hdb⟩ := unregister_ok_elim hok
  subst hdb
  have hPfind : db.participations.find?
      (fun q => q.student_id == s.id && q.activity_id == a.id) = some p := by
    unfold findParticipation at hP
    exact hP
  have hpmem : p ∈ db.participations := List.mem_of_find?_eq_some hPfind
  have hpred := List.find?_some hPfind
  simp only [Bool.and_eq_true, beq_iff_eq] at hpred
  refine ⟨rfl, rfl, a, s, p, hA, hS, hpmem, hpred.1, hpred.2, ?_, ?_, ?_, ?_⟩
  · intro hmem
    have := (List.mem_filter.mp hmem).2
    simp at this
  · intro q hq hqp
    refine List.mem_filter.mpr ⟨hq, ?_⟩
    have hne : q.id ≠ p.id := by
      intro hid
      exact hqp (List.inj_on_of_nodup_map hids hq hpmem hid)
    simpa [bne_iff_ne] using hne
  · intro q hq
    exact List.mem_of_mem_filter hq
  · exact length_filter_ne_id_of_nodup hids hpmem

/-- The initialized store after one committed Chess Club signup. -/
def oneSignupDB : DB := runSignup "Chess Club" "m@e.edu" (init_db emptyDB)

/-- `oneSignupDB` after the matching committed unregister. -/
def oneSignupUndoneDB : DB := runUnregister "Chess Club" "m@e.edu" oneSignupDB

theorem C10_unregister_deletes_exactly_one_witness :
    ((oneSignupDB.participations.map (fun p => p.id)).Nodup) ∧
    oneSignupUndoneDB.students = oneSignupDB.students ∧
    oneSignupUndoneDB.activities = oneSignupDB.activities ∧
    (∃ a s p, findActivity oneSignupDB "Chess Club" = some a ∧
      findStudent oneSignupDB "m@e.edu" = some s ∧
      p ∈ oneSignupDB.participations ∧ p.student_id = s.id ∧
      p.activity_id = a.id ∧
      p ∉ oneSignupUndoneDB.participations ∧
      (∀ q ∈ oneSignupDB.participations, q ≠ p →
        q ∈ oneSignupUndoneDB.participations) ∧
      (∀ q ∈ oneSignupUndoneDB.participations,
        q ∈ oneSignupDB.participations) ∧
      oneSignupUndoneDB.participations.length + 1 =
        oneSignupDB.participations.length) := by
  have h := @C10_unregister_deletes_exactly_one oneSignupDB oneSignupUndoneDB
    "Chess Club" "m@e.edu" "Unregistered m@e.edu from Chess Club"
    (by decide) (by rfl)
  exact ⟨by decide, h.1, h.2.1, h.2.2⟩
